import Mathlib

/-!
Verification of the ju::sqlite binding layer (C++ header library) against its
natural-language specification.  Each C++ construct relevant to the claims is
shallowly embedded as a Lean definition translated from the source under
`src/include/ju/sqlite/`; theorems then settle the claims.

Numeric machine values (SQLite status codes, alignment arithmetic on
`uintptr_t`) are modelled as `Nat` with explicit `% 2 ^ 64` where overflow is
possible.
-/

namespace JuSqlite

/-!
## Error/result taxonomy — `src/include/ju/sqlite/error.hpp`

The C++ `enum class error : int` mirrors SQLite primary and extended status
codes.  `error.code` records the underlying integer of each enumerator
(values from `sqlite3.h`, e.g. `SQLITE_IOERR_READ = 10 | 1 << 8 = 266`).
-/

inductive error where
| abort
| auth
| busy
| cantopen
| constraint
| corrupt
| done
| empty
| error
| format
| full
| internal
| interrupt
| ioerr
| locked
| mismatch
| misuse
| nolfs
| nomem
| notadb
| notfound
| notice
| ok
| perm
| protocol
| range
| readonly
| row
| schema
| toobig
| warning
| abort_rollback
| auth_user
| busy_recovery
| busy_snapshot
| busy_timeout
| cantopen_convpath
| cantopen_dirtywal
| cantopen_fullpath
| cantopen_isdir
| cantopen_notempdir
| cantopen_symlink
| constraint_check
| constraint_commit_hook
| constraint_datatype
| constraint_foreignkey
| constraint_function
| constraint_notnull
| constraint_pinned
| constraint_primarykey
| constraint_rowid
| constraint_trigger
| constraint_unique
| constraint_vtab
| corrupt_index
| corrupt_sequence
| corrupt_vtab
| error_missing_collseq
| error_retry
| error_snapshot
| ioerr_access
| ioerr_auth
| ioerr_begin_atomic
| ioerr_blocked
| ioerr_checkreservedlock
| ioerr_close
| ioerr_commit_atomic
| ioerr_convpath
| ioerr_corruptfs
| ioerr_data
| ioerr_delete
| ioerr_delete_noent
| ioerr_dir_close
| ioerr_dir_fsync
| ioerr_fstat
| ioerr_fsync
| ioerr_gettemppath
| ioerr_lock
| ioerr_mmap
| ioerr_nomem
| ioerr_rdlock
| ioerr_read
| ioerr_rollback_atomic
| ioerr_seek
| ioerr_shmlock
| ioerr_shmmap
| ioerr_shmopen
| ioerr_shmsize
| ioerr_short_read
| ioerr_truncate
| ioerr_unlock
| ioerr_vnode
| ioerr_write
| locked_sharedcache
| locked_vtab
| notice_recover_rollback
| notice_recover_wal
| ok_load_permanently
| readonly_cantinit
| readonly_cantlock
| readonly_dbmoved
| readonly_directory
| readonly_recovery
| readonly_rollback
| warning_autoindex
deriving DecidableEq, Fintype, Repr

def errCode : error → Nat
| .abort => 4
| .auth => 23
| .busy => 5
| .cantopen => 14
| .constraint => 19
| .corrupt => 11
| .done => 101
| .empty => 16
| .error => 1
| .format => 24
| .full => 13
| .internal => 2
| .interrupt => 9
| .ioerr => 10
| .locked => 6
| .mismatch => 20
| .misuse => 21
| .nolfs => 22
| .nomem => 7
| .notadb => 26
| .notfound => 12
| .notice => 27
| .ok => 0
| .perm => 3
| .protocol => 15
| .range => 25
| .readonly => 8
| .row => 100
| .schema => 17
| .toobig => 18
| .warning => 28
| .abort_rollback => 516
| .auth_user => 279
| .busy_recovery => 261
| .busy_snapshot => 517
| .busy_timeout => 773
| .cantopen_convpath => 1038
| .cantopen_dirtywal => 1294
| .cantopen_fullpath => 782
| .cantopen_isdir => 526
| .cantopen_notempdir => 270
| .cantopen_symlink => 1550
| .constraint_check => 275
| .constraint_commit_hook => 531
| .constraint_datatype => 3091
| .constraint_foreignkey => 787
| .constraint_function => 1043
| .constraint_notnull => 1299
| .constraint_pinned => 2835
| .constraint_primarykey => 1555
| .constraint_rowid => 2579
| .constraint_trigger => 1811
| .constraint_unique => 2067
| .constraint_vtab => 2323
| .corrupt_index => 779
| .corrupt_sequence => 523
| .corrupt_vtab => 267
| .error_missing_collseq => 257
| .error_retry => 513
| .error_snapshot => 769
| .ioerr_access => 3338
| .ioerr_auth => 7178
| .ioerr_begin_atomic => 7434
| .ioerr_blocked => 2826
| .ioerr_checkreservedlock => 3594
| .ioerr_close => 4106
| .ioerr_commit_atomic => 7690
| .ioerr_convpath => 6666
| .ioerr_corruptfs => 8458
| .ioerr_data => 8202
| .ioerr_delete => 2570
| .ioerr_delete_noent => 5898
| .ioerr_dir_close => 4362
| .ioerr_dir_fsync => 1290
| .ioerr_fstat => 1802
| .ioerr_fsync => 1034
| .ioerr_gettemppath => 6410
| .ioerr_lock => 3850
| .ioerr_mmap => 6154
| .ioerr_nomem => 3082
| .ioerr_rdlock => 2314
| .ioerr_read => 266
| .ioerr_rollback_atomic => 7946
| .ioerr_seek => 5642
| .ioerr_shmlock => 5130
| .ioerr_shmmap => 5386
| .ioerr_shmopen => 4618
| .ioerr_shmsize => 4874
| .ioerr_short_read => 522
| .ioerr_truncate => 1546
| .ioerr_unlock => 2058
| .ioerr_vnode => 6922
| .ioerr_write => 778
| .locked_sharedcache => 262
| .locked_vtab => 518
| .notice_recover_rollback => 539
| .notice_recover_wal => 283
| .ok_load_permanently => 256
| .readonly_cantinit => 1288
| .readonly_cantlock => 520
| .readonly_dbmoved => 1032
| .readonly_directory => 1544
| .readonly_recovery => 264
| .readonly_rollback => 776
| .warning_autoindex => 284

/-- C++ `enum class` equality compares the underlying integer values. -/
def errBeq (a b : error) : Bool := errCode a == errCode b

/-- `is_ok` from error.hpp: `e == error::ok || e == error::row || e == error::done`. -/
def is_ok (e : error) : Bool :=
  errBeq e error.ok || errBeq e error.row || errBeq e error.done

/-- `is_error` from error.hpp: `e != error::ok && e != error::row && e != error::done`. -/
def is_error (e : error) : Bool :=
  !errBeq e error.ok && !errBeq e error.row && !errBeq e error.done

/-- `is_row` from error.hpp: `e == error::row`. -/
def is_row (e : error) : Bool := errBeq e error.row

/-- `is_done` from error.hpp: `e == error::done`. -/
def is_done (e : error) : Bool := errBeq e error.done

/-- C9: the classification predicates partition the closed error-code set:
`is_ok` holds exactly on `ok`, `row`, `done`; `is_error` is its complement over
every code (extended codes included); `is_row` holds exactly on `row`,
`is_done` exactly on `done`, and each of the two implies `is_ok`. -/
theorem error_predicates_partition :
    ∀ e : error,
      (is_ok e = true ↔ (e = error.ok ∨ e = error.row ∨ e = error.done)) ∧
      (is_error e = true ↔ is_ok e = false) ∧
      (is_row e = true ↔ e = error.row) ∧
      (is_done e = true ↔ e = error.done) ∧
      (is_row e = true → is_ok e = true) ∧
      (is_done e = true → is_ok e = true) := by
  decide

/-- Witness for C9: the row code is classified as a row and as a success. -/
theorem error_predicates_partition_witness :
    is_row error.row = true ∧ is_ok error.row = true :=
  ⟨by decide, (error_predicates_partition error.row).2.2.2.2.1 (by decide)⟩

/-!
## Execution context, result binding and exception translation
(`tag.hpp`, `defines.hpp`, `function.hpp`, `context.hpp`, `aggregate.hpp`)

`sqlite3_context` is modelled by the result slot the layer writes through the
`sqlite3_result_*` entry points: unset, a value (scalar payload abstracted as
`Int`), an error code (`sqlite3_result_error_code`) or an error message
(`sqlite3_result_error`).  A later `sqlite3_result_*` call overwrites the
slot, which is exactly what the C API does.
-/

/-- Result state of an execution context (`sqlite3_context`). -/
inductive CtxResult where
| unset
| val (v : Int)
| errorCode (e : error)
| errorMsg (m : String)
deriving DecidableEq, Repr

/-- Execution context handle: only its result slot is observable here. -/
structure Ctx where
  result : CtxResult
deriving DecidableEq, Repr

/-- `tag_invoke(bind_tag, ctx, error e)`: `sqlite3_result_error_code(ctx, (int)e)`. -/
def bind_error (_ctx : Ctx) (e : error) : Ctx := ⟨CtxResult.errorCode e⟩

/-- `tag_invoke(bind_tag, ctx, std::exception e)`: `sqlite3_result_error(ctx, e.what(), -1)`. -/
def bind_exception (_ctx : Ctx) (what : String) : Ctx := ⟨CtxResult.errorMsg what⟩

/-- `tag_invoke(bind_tag, ctx, std::error_code e)`: `sqlite3_result_error(ctx, e.message().c_str(), -1)`. -/
def bind_error_code (_ctx : Ctx) (msg : String) : Ctx := ⟨CtxResult.errorMsg msg⟩

/-- Value-binding overloads of `bind_tag` on a context (`sqlite3_result_int64` etc.). -/
def bind_value (_ctx : Ctx) (v : Int) : Ctx := ⟨CtxResult.val v⟩

/-- The four catchable shapes of a thrown object, in the order of the catch
clauses of `JUSQLITE_TRY_CTX`: the library error enum, `std::exception`
(carrying its `what()` text), `std::error_code` (carrying its `message()`),
and anything else. -/
inductive Thrown where
| err (e : error)
| exc (what : String)
| ec (msg : String)
| other
deriving DecidableEq, Repr

/-- `JUSQLITE_TRY_CTX(BLOCK)` from defines.hpp: run the block; a normally
completing block yields its context; each catch clause binds the matching
error representation; the catch-all binds `error::error`.  Totality of this
function is the model of "no exception crosses into foreign code". -/
def try_ctx (ctx : Ctx) (block : Except Thrown Ctx) : Ctx :=
  match block with
  | .ok c => c
  | .error (.err e) => bind_error ctx e
  | .error (.exc w) => bind_exception ctx w
  | .error (.ec m) => bind_error_code ctx m
  | .error .other => bind_error ctx error.error

/-- Behaviour of one invocation of a user callable / method: it either
returns a result of type α or throws. -/
inductive Outcome (α : Type) where
| ret (v : α)
| throw (t : Thrown)
deriving DecidableEq, Repr

/-- The context-result each thrown shape is translated to by the catch
clauses of `JUSQLITE_TRY_CTX`. -/
def thrownResult : Thrown → CtxResult
| .err e => CtxResult.errorCode e
| .exc w => CtxResult.errorMsg w
| .ec m => CtxResult.errorMsg m
| .other => CtxResult.errorCode error.error

/-- Result of a scalar shim invocation.  `ub` marks the one execution the C++
source leaves undefined: dereferencing a null userdata pointer. -/
inductive ShimResult where
| ok (ctx : Ctx) (invoked : Bool)
| ub
deriving DecidableEq, Repr

/-- `detail::invoke_userdata_func<F>` from function.hpp: recovers
`F *callable = userdata<F>(ctx)` and — with no null check — invokes
`*callable` inside `JUSQLITE_TRY_CTX`, binding the returned value into the
context.  `ud_null` models a null userdata slot; `out` is the behaviour of
the callable on this invocation.  The Bool in `.ok` records whether the user
callable was invoked. -/
def invoke_userdata_func (ud_null : Bool) (out : Outcome Int) (ctx : Ctx) : ShimResult :=
  if ud_null then ShimResult.ub
  else
    ShimResult.ok
      (try_ctx ctx
        (match out with
         | .ret v => Except.ok (bind_value ctx v)
         | .throw t => Except.error t))
      true

/-- `detail::invoke_stateless_func<F>` from function.hpp: default-constructs
`F{}` per call (no stored state, hence no pointer to check) and invokes it
inside `JUSQLITE_TRY_CTX`.  Returns the final context and whether the
callable was invoked. -/
def invoke_stateless_func (out : Outcome Int) (ctx : Ctx) : Ctx × Bool :=
  (try_ctx ctx
    (match out with
     | .ret v => Except.ok (bind_value ctx v)
     | .throw t => Except.error t),
   true)

/-!
## Aggregate group state — `context.hpp` and `aggregate.hpp`

`detail::lazy_initialised<T>` is `{ T instance; bool is_initialised; }`
placed in the buffer returned by `sqlite3_aggregate_context`, which the
engine zero-fills on first access.  `GroupBuf` carries the flag plus two
instrumentation counters recording the placement-construction events
(`control->initialise`, statically required to be nothrow) and the explicit
destruction events (`std::destroy_at`). -/

structure GroupBuf where
  is_initialised : Bool
  constructed : Nat
  destructed : Nat
deriving DecidableEq, Repr

/-- A freshly allocated group buffer, zero-filled by the engine. -/
def GroupBuf.zeroed : GroupBuf := ⟨false, 0, 0⟩

/-- `aggdata<T>(ctx)` for non-simple `T` (context.hpp): obtain the per-group
buffer (`allocOk` models `sqlite3_aggregate_context` returning non-null);
if the adjacent flag is already set return the instance; otherwise look up
the registration control block (`ctrl` models a non-null userdata pointer),
construct the instance in place and set the flag.  The Bool reports whether
a non-null instance pointer was produced. -/
def aggdata (allocOk ctrl : Bool) (g : GroupBuf) : GroupBuf × Bool :=
  if !allocOk then (g, false)
  else if g.is_initialised then (g, true)
  else if !ctrl then (g, false)
  else ({ g with is_initialised := true, constructed := g.constructed + 1 }, true)

/-- `detail::invoke_agg_step<T>` from aggregate.hpp: recover (lazily
constructing) the group state; on a null pointer bind `error::nomem` and
return without invoking (`JUSQLITE_VALIDATE_CTX`); otherwise apply `T::step`
inside `JUSQLITE_TRY_CTX`.  `out` is the behaviour of the `step` method
(`ret c` = returned normally leaving the context as `c`). -/
def invoke_agg_step (allocOk ctrl : Bool) (out : Outcome Ctx) (g : GroupBuf) (ctx : Ctx) :
    GroupBuf × Ctx × Bool :=
  let r := aggdata allocOk ctrl g
  if !r.2 then (r.1, bind_error ctx error.nomem, false)
  else
    (r.1,
     try_ctx ctx
       (match out with
        | .ret c => Except.ok c
        | .throw t => Except.error t),
     true)

/-- `detail::invoke_agg_inverse<T>` from aggregate.hpp: same shape as the
step shim, applying `T::inverse`. -/
def invoke_agg_inverse (allocOk ctrl : Bool) (out : Outcome Ctx) (g : GroupBuf) (ctx : Ctx) :
    GroupBuf × Ctx × Bool :=
  let r := aggdata allocOk ctrl g
  if !r.2 then (r.1, bind_error ctx error.nomem, false)
  else
    (r.1,
     try_ctx ctx
       (match out with
        | .ret c => Except.ok c
        | .throw t => Except.error t),
     true)

/-- `detail::invoke_agg_value<T>` from aggregate.hpp: recover the group
state; on null bind `error::nomem`; otherwise `bind(ctx, agg->value())`
inside `JUSQLITE_TRY_CTX`.  No destruction. -/
def invoke_agg_value (allocOk ctrl : Bool) (out : Outcome Int) (g : GroupBuf) (ctx : Ctx) :
    GroupBuf × Ctx × Bool :=
  let r := aggdata allocOk ctrl g
  if !r.2 then (r.1, bind_error ctx error.nomem, false)
  else
    (r.1,
     try_ctx ctx
       (match out with
        | .ret v => Except.ok (bind_value ctx v)
        | .throw t => Except.error t),
     true)

/-- `detail::invoke_agg_final<T>` from aggregate.hpp: like the value shim,
but after the guarded `bind(ctx, agg->value())` it explicitly destructs the
instance (`std::destroy_at(agg)`) — also when the value call threw, since
the destruction sits after the try/catch. -/
def invoke_agg_final (allocOk ctrl : Bool) (out : Outcome Int) (g : GroupBuf) (ctx : Ctx) :
    GroupBuf × Ctx × Bool :=
  let r := aggdata allocOk ctrl g
  if !r.2 then (r.1, bind_error ctx error.nomem, false)
  else
    ({ r.1 with destructed := r.1.destructed + 1 },
     try_ctx ctx
       (match out with
        | .ret v => Except.ok (bind_value ctx v)
        | .throw t => Except.error t),
     true)

/-- C1: for every trampoline invocation (scalar stateful/stateless, aggregate
step/inverse/value/final) in which the user callable is actually invoked and
throws, the shim catches the thrown object — library error enum,
`std::exception`, `std::error_code`, or catch-all — and the execution
context ends holding the corresponding error representation, never a result
value; each shim is a total function into a final context, the model of "no
exception propagates into the foreign engine". -/
theorem shims_translate_thrown_errors :
    ∀ (ctx : Ctx) (t : Thrown) (g : GroupBuf) (allocOk ctrl : Bool),
      invoke_userdata_func false (Outcome.throw t) ctx = ShimResult.ok ⟨thrownResult t⟩ true ∧
      invoke_stateless_func (Outcome.throw t) ctx = (⟨thrownResult t⟩, true) ∧
      ((aggdata allocOk ctrl g).2 = true →
        invoke_agg_step allocOk ctrl (Outcome.throw t) g ctx =
          ((aggdata allocOk ctrl g).1, ⟨thrownResult t⟩, true) ∧
        invoke_agg_inverse allocOk ctrl (Outcome.throw t) g ctx =
          ((aggdata allocOk ctrl g).1, ⟨thrownResult t⟩, true) ∧
        invoke_agg_value allocOk ctrl (Outcome.throw t) g ctx =
          ((aggdata allocOk ctrl g).1, ⟨thrownResult t⟩, true) ∧
        invoke_agg_final allocOk ctrl (Outcome.throw t) g ctx =
          ({ (aggdata allocOk ctrl g).1 with
              destructed := (aggdata allocOk ctrl g).1.destructed + 1 },
            ⟨thrownResult t⟩, true)) ∧
      (∀ v : Int, thrownResult t ≠ CtxResult.val v) ∧
      thrownResult t ≠ CtxResult.unset := by
  intro ctx t g allocOk ctrl
  refine ⟨?_, ?_, fun h => ?_, ?_, ?_⟩
  · cases t <;>
      simp [invoke_userdata_func, try_ctx, thrownResult, bind_error,
        bind_exception, bind_error_code, bind_value]
  · cases t <;>
      simp [invoke_stateless_func, try_ctx, thrownResult, bind_error,
        bind_exception, bind_error_code, bind_value]
  · refine ⟨?_, ?_, ?_, ?_⟩ <;>
      (cases t <;>
        simp [invoke_agg_step, invoke_agg_inverse, invoke_agg_value,
          invoke_agg_final, try_ctx, thrownResult, bind_error,
          bind_exception, bind_error_code, bind_value, h])
  · intro v
    cases t <;> simp [thrownResult]
  · cases t <;> simp [thrownResult]

/-- Witness for C1: a concrete aggregate value invocation whose `value()`
method throws a `std::exception` with message "boom"; the context ends with
that message as error text and the state buffer is constructed but not
destructed. -/
theorem shims_translate_thrown_errors_witness :
    (aggdata true true GroupBuf.zeroed).2 = true ∧
    invoke_agg_value true true (Outcome.throw (Thrown.exc "boom")) GroupBuf.zeroed
        ⟨CtxResult.unset⟩ =
      ((aggdata true true GroupBuf.zeroed).1,
        ⟨thrownResult (Thrown.exc "boom")⟩, true) :=
  ⟨by decide,
    ((shims_translate_thrown_errors ⟨CtxResult.unset⟩ (Thrown.exc "boom")
        GroupBuf.zeroed true true).2.2.1 (by decide)).2.2.1⟩

/-- Counterexample to C3 as stated: the scalar per-call shim
(`invoke_userdata_func`) performs no null check on the userdata pointer — on
a null pointer it dereferences it (undefined behaviour) instead of binding
the out-of-memory code and returning without invoking the callable. -/
theorem scalar_shim_null_no_nomem_short_circuit :
    invoke_userdata_func true (Outcome.ret 0) ⟨CtxResult.unset⟩ = ShimResult.ub ∧
    invoke_userdata_func true (Outcome.ret 0) ⟨CtxResult.unset⟩ ≠
      ShimResult.ok (bind_error ⟨CtxResult.unset⟩ error.nomem) false := by
  decide

/-- C3 (amended): for the aggregate step/inverse/value/final shims, whenever
recovering the per-group state yields a null pointer (foreign allocation
failure, or a missing control block on first touch), the shim binds
`error::nomem` into the context and returns without invoking any method of
the user callable and without destructing anything; the scalar per-call shim
performs no such check. -/
theorem agg_shims_null_state_bind_nomem :
    ∀ (allocOk ctrl : Bool) (g : GroupBuf) (ctx : Ctx)
      (outS outI : Outcome Ctx) (outV outF : Outcome Int),
      (aggdata allocOk ctrl g).2 = false →
        invoke_agg_step allocOk ctrl outS g ctx =
          ((aggdata allocOk ctrl g).1, bind_error ctx error.nomem, false) ∧
        invoke_agg_inverse allocOk ctrl outI g ctx =
          ((aggdata allocOk ctrl g).1, bind_error ctx error.nomem, false) ∧
        invoke_agg_value allocOk ctrl outV g ctx =
          ((aggdata allocOk ctrl g).1, bind_error ctx error.nomem, false) ∧
        invoke_agg_final allocOk ctrl outF g ctx =
          ((aggdata allocOk ctrl g).1, bind_error ctx error.nomem, false) := by
  intro allocOk ctrl g ctx outS outI outV outF h
  refine ⟨?_, ?_, ?_, ?_⟩ <;>
    simp [invoke_agg_step, invoke_agg_inverse, invoke_agg_value,
      invoke_agg_final, h]

/-- Witness for the amended C3: allocation failure on a step invocation of a
fresh group binds `error::nomem`, leaves the buffer untouched and does not
invoke the user method. -/
theorem agg_shims_null_state_bind_nomem_witness :
    (aggdata false true GroupBuf.zeroed).2 = false ∧
    invoke_agg_step false true (Outcome.ret ⟨CtxResult.unset⟩) GroupBuf.zeroed
        ⟨CtxResult.unset⟩ =
      ((aggdata false true GroupBuf.zeroed).1,
        bind_error ⟨CtxResult.unset⟩ error.nomem, false) :=
  ⟨by decide,
    (agg_shims_null_state_bind_nomem false true GroupBuf.zeroed ⟨CtxResult.unset⟩
        (Outcome.ret ⟨CtxResult.unset⟩) (Outcome.ret ⟨CtxResult.unset⟩)
        (Outcome.ret 0) (Outcome.ret 0) (by decide)).1⟩

/-!
## Aggregate lifecycle across a sequence of shim invocations (C2)

One shim invocation on a group, as the foreign engine issues it: which shim,
whether the engine-side buffer request succeeded, and the behaviour of the
user method on that invocation.  The registration control block (`ctrl`) is
fixed for the whole sequence.
-/

/-- One engine-issued invocation on a single group. -/
inductive AggCall where
| step (allocOk : Bool) (out : Outcome Ctx)
| inverse (allocOk : Bool) (out : Outcome Ctx)
| value (allocOk : Bool) (out : Outcome Int)
| final (allocOk : Bool) (out : Outcome Int)
deriving DecidableEq, Repr

def AggCall.isFinal : AggCall → Bool
| .final _ _ => true
| _ => false

/-- Effect of one shim invocation on the group buffer (the per-call context
does not feed back into the buffer, so a fresh context is used). -/
def applyCall (ctrl : Bool) (g : GroupBuf) : AggCall → GroupBuf
| .step a out => (invoke_agg_step a ctrl out g ⟨CtxResult.unset⟩).1
| .inverse a out => (invoke_agg_inverse a ctrl out g ⟨CtxResult.unset⟩).1
| .value a out => (invoke_agg_value a ctrl out g ⟨CtxResult.unset⟩).1
| .final a out => (invoke_agg_final a ctrl out g ⟨CtxResult.unset⟩).1

/-- Run a sequence of shim invocations on one group buffer. -/
def runCalls (ctrl : Bool) : List AggCall → GroupBuf → GroupBuf
| [], g => g
| c :: cs, g => runCalls ctrl cs (applyCall ctrl g c)

/-- Number of final invocations in a sequence. -/
def countFinals (cs : List AggCall) : Nat := (cs.filter AggCall.isFinal).length

/-- The construction counter always agrees with the `is_initialised` flag:
the flag is tested before construction and set after, and never reset. -/
def ConstructInv (g : GroupBuf) : Prop :=
  g.constructed = (if g.is_initialised then 1 else 0)

lemma aggdata_constructInv (allocOk ctrl : Bool) (g : GroupBuf)
    (hg : ConstructInv g) :
    ConstructInv (aggdata allocOk ctrl g).1 ∧
      (aggdata allocOk ctrl g).1.destructed = g.destructed := by
  unfold ConstructInv at *
  unfold aggdata
  cases allocOk <;> cases ctrl <;> cases hi : g.is_initialised <;>
    simp_all

lemma applyCall_constructInv (ctrl : Bool) (g : GroupBuf) (c : AggCall)
    (hg : ConstructInv g) : ConstructInv (applyCall ctrl g c) := by
  cases c <;> rename_i a out <;>
    simp only [applyCall, invoke_agg_step, invoke_agg_inverse,
      invoke_agg_value, invoke_agg_final] <;>
    rcases h2 : (aggdata a ctrl g).2 <;>
    exact (aggdata_constructInv a ctrl g hg).1

lemma aggdata_destructed (allocOk ctrl : Bool) (g : GroupBuf) :
    (aggdata allocOk ctrl g).1.destructed = g.destructed := by
  unfold aggdata
  cases allocOk <;> cases ctrl <;> cases g.is_initialised <;> simp_all

lemma applyCall_destructed_nonfinal (ctrl : Bool) (g : GroupBuf) (c : AggCall)
    (hf : c.isFinal = false) : (applyCall ctrl g c).destructed = g.destructed := by
  cases c with
  | step a out =>
    simp only [applyCall, invoke_agg_step]
    rcases h2 : (aggdata a ctrl g).2 <;> exact aggdata_destructed a ctrl g
  | inverse a out =>
    simp only [applyCall, invoke_agg_inverse]
    rcases h2 : (aggdata a ctrl g).2 <;> exact aggdata_destructed a ctrl g
  | value a out =>
    simp only [applyCall, invoke_agg_value]
    rcases h2 : (aggdata a ctrl g).2 <;> exact aggdata_destructed a ctrl g
  | final a out => simp [AggCall.isFinal] at hf

lemma applyCall_destructed_final (ctrl : Bool) (g : GroupBuf) (c : AggCall)
    (hf : c.isFinal = true) : (applyCall ctrl g c).destructed ≤ g.destructed + 1 := by
  cases c with
  | step a out => simp [AggCall.isFinal] at hf
  | inverse a out => simp [AggCall.isFinal] at hf
  | value a out => simp [AggCall.isFinal] at hf
  | final a out =>
    have hd := aggdata_destructed a ctrl g
    simp only [applyCall, invoke_agg_final]
    rcases h2 : (aggdata a ctrl g).2
    · exact le_trans (le_of_eq hd) (Nat.le_succ _)
    · exact Nat.succ_le_succ (le_of_eq hd)

lemma runCalls_constructInv (ctrl : Bool) (cs : List AggCall) (g : GroupBuf)
    (hg : ConstructInv g) : ConstructInv (runCalls ctrl cs g) := by
  induction cs generalizing g with
  | nil => exact hg
  | cons c cs ih => exact ih _ (applyCall_constructInv ctrl g c hg)

lemma runCalls_destructed (ctrl : Bool) (cs : List AggCall) (g : GroupBuf) :
    (runCalls ctrl cs g).destructed ≤ g.destructed + countFinals cs := by
  induction cs generalizing g with
  | nil => simp [runCalls, countFinals]
  | cons c cs ih =>
    have h2 := ih (applyCall ctrl g c)
    rw [runCalls]
    rcases hf : c.isFinal
    · have h1 := applyCall_destructed_nonfinal ctrl g c hf
      have h3 : countFinals (c :: cs) = countFinals cs := by
        unfold countFinals
        simp [List.filter_cons, hf]
      rw [h3]
      omega
    · have h1 := applyCall_destructed_final ctrl g c hf
      have h3 : countFinals (c :: cs) = countFinals cs + 1 := by
        unfold countFinals
        simp [List.filter_cons, hf]
      rw [h3]
      omega

/-- C2: starting from the zero-filled buffer of a fresh group, across any
sequence of step/inverse/value/final shim invocations with any per-call
allocation outcomes: the aggregate instance is constructed at most once (the
adjacent flag is tested before construction and set after); the number of
destructions is bounded by the number of final invocations — so under the
engine contract that a group is finalised at most once, destruction happens
at most once, and a sequence with no final (value read repeatedly, window
style) destructs nothing. -/
theorem aggregate_lifecycle_construct_once_destruct_final_only :
    ∀ (ctrl : Bool) (cs : List AggCall),
      (runCalls ctrl cs GroupBuf.zeroed).constructed ≤ 1 ∧
      (runCalls ctrl cs GroupBuf.zeroed).destructed ≤ countFinals cs ∧
      (countFinals cs ≤ 1 → (runCalls ctrl cs GroupBuf.zeroed).destructed ≤ 1) ∧
      (countFinals cs = 0 → (runCalls ctrl cs GroupBuf.zeroed).destructed = 0) := by
  intro ctrl cs
  have hc := runCalls_constructInv ctrl cs GroupBuf.zeroed (by simp [ConstructInv, GroupBuf.zeroed])
  have hd := runCalls_destructed ctrl cs GroupBuf.zeroed
  have hz : GroupBuf.zeroed.destructed = 0 := rfl
  unfold ConstructInv at hc
  refine ⟨?_, ?_, ?_, ?_⟩
  · split at hc <;> omega
  · omega
  · omega
  · omega

/-- Witness for C2: a step, two repeated value reads, then one final; the
instance is constructed exactly once and destructed exactly once. -/
theorem aggregate_lifecycle_witness :
    countFinals
        [AggCall.step true (Outcome.ret ⟨CtxResult.unset⟩),
          AggCall.value true (Outcome.ret 3),
          AggCall.value true (Outcome.ret 3),
          AggCall.final true (Outcome.ret 3)] ≤ 1 ∧
    (runCalls true
        [AggCall.step true (Outcome.ret ⟨CtxResult.unset⟩),
          AggCall.value true (Outcome.ret 3),
          AggCall.value true (Outcome.ret 3),
          AggCall.final true (Outcome.ret 3)] GroupBuf.zeroed).destructed ≤ 1 :=
  ⟨by decide,
    (aggregate_lifecycle_construct_once_destruct_final_only true
        [AggCall.step true (Outcome.ret ⟨CtxResult.unset⟩),
          AggCall.value true (Outcome.ret 3),
          AggCall.value true (Outcome.ret 3),
          AggCall.final true (Outcome.ret 3)]).2.2.1 (by decide)⟩

/-!
## Registration and the arity bound — `function.hpp` / `aggregate.hpp`

`detail::callable_traits` / `detail::method_traits` derive the SQL arity of
a callable at compile time: the number of user-visible SQL arguments,
excluding the optional leading `context_raw *` parameter
(`arity = sizeof...(Args)`).  Only the attributes the claims need are kept.
-/

/-- Compile-time callable traits: context flag and decoded SQL argument
list (each entry one SQL-level argument; the element types are irrelevant
to the arity claims). -/
structure callable_traits where
  needs_context : Bool
  sql_args : List Unit

/-- `trait::arity = sizeof...(Args)`, sans context. -/
def callable_traits.arity (t : callable_traits) : Nat := t.sql_args.length

/-- Modelled from the spec: the foreign registration entry points
(`sqlite3_create_function_v2`, `sqlite3_create_window_function`) are not
code of this repository.  Per the spec the foreign ABI limits SQL-function
arity to `[0, 127]` and an out-of-range arity must fail registration; the
rejection surfaces through the misuse ("invalid argument" / library used
incorrectly) code of the taxonomy.  Failure causes unrelated to arity
(name too long, engine out of memory, …) are abstracted by `engineOk`. -/
def engine_create_function (nArg : Nat) (engineOk : Bool) : error :=
  if 127 < nArg then error.misuse
  else if engineOk then error.ok else error.error

/-- `register_function` / `create_function` from function.hpp:
`static_assert(trait::arity <= 127, ...)`, then
`sqlite3_create_function_v2(db, name, trait::arity, ...)`.  `none` models
the static assertion rejecting the program (registration fails to
compile); otherwise the pair records the `nArg` actually handed to the
engine and the translated return code. -/
def register_function (t : callable_traits) (engineOk : Bool) : Option (Nat × error) :=
  if t.arity ≤ 127 then some (t.arity, engine_create_function t.arity engineOk)
  else none

/-- `create_aggregate<T>` from aggregate.hpp: for non-simple `T` first
allocate the control block via `make_managed` (`ctrlAllocOk`; on failure
return `error::nomem` without reaching the engine); then call
`sqlite3_create_window_function(db, name, step_traits_t<T>::arity, ...)` —
with no arity check on this side, neither static nor dynamic.  The
`Option Nat` records the `nArg` handed to the engine (`none` = engine not
reached). -/
def create_aggregate (t : callable_traits) (isSimple ctrlAllocOk engineOk : Bool) :
    Option Nat × error :=
  if !isSimple && !ctrlAllocOk then (none, error.nomem)
  else (some t.arity, engine_create_function t.arity engineOk)

/-- C4: the derived SQL arity must lie in [0, 127].  Arity above 127 makes
scalar registration fail to compile (`static_assert`) and makes aggregate
registration — which carries no compile-time check — fail dynamically with
the engine rejecting the out-of-range argument count (misuse, the
taxonomy's invalid-use code); for arity in range, registration hands
exactly the derived arity to the engine and, absent unrelated failures,
returns ok. -/
theorem registration_arity_bound :
    ∀ (t : callable_traits) (isSimple ctrlAllocOk engineOk : Bool),
      (127 < t.arity →
        register_function t engineOk = none ∧
        (ctrlAllocOk = true →
          (create_aggregate t isSimple ctrlAllocOk engineOk).1 = some t.arity ∧
          (create_aggregate t isSimple ctrlAllocOk engineOk).2 = error.misuse ∧
          is_error (create_aggregate t isSimple ctrlAllocOk engineOk).2 = true)) ∧
      (t.arity ≤ 127 →
        register_function t engineOk =
          some (t.arity, engine_create_function t.arity engineOk) ∧
        (engineOk = true →
          engine_create_function t.arity engineOk = error.ok ∧
          (ctrlAllocOk = true →
            create_aggregate t isSimple ctrlAllocOk engineOk =
              (some t.arity, error.ok)))) := by
  intro t isSimple ctrlAllocOk engineOk
  constructor
  · intro h127
    constructor
    · unfold register_function
      rw [if_neg (by omega)]
    · intro hc
      subst hc
      have hagg : create_aggregate t isSimple true engineOk =
          (some t.arity, engine_create_function t.arity engineOk) := by
        unfold create_aggregate
        simp
      have heng : engine_create_function t.arity engineOk = error.misuse := by
        unfold engine_create_function
        rw [if_pos h127]
      rw [hagg, heng]
      refine ⟨rfl, rfl, ?_⟩
      show is_error error.misuse = true
      decide
  · intro hle
    constructor
    · unfold register_function
      rw [if_pos hle]
    · intro he
      subst he
      have heng : engine_create_function t.arity true = error.ok := by
        unfold engine_create_function
        rw [if_neg (by omega), if_pos rfl]
      refine ⟨heng, fun hc => ?_⟩
      subst hc
      unfold create_aggregate
      simp [heng]

set_option maxRecDepth 4000 in
/-- Witness for C4: a two-argument callable registers with `nArg = 2` and
succeeds; a 128-argument callable fails scalar compilation and is rejected
by the engine on the aggregate path. -/
theorem registration_arity_bound_witness :
    (127 < (callable_traits.mk false (List.replicate 128 ())).arity ∧
      register_function (callable_traits.mk false (List.replicate 128 ())) true = none) ∧
    ((callable_traits.mk false [(), ()]).arity ≤ 127 ∧
      create_aggregate (callable_traits.mk false [(), ()]) false true true =
        (some 2, error.ok)) :=
  ⟨⟨by decide,
    (registration_arity_bound (callable_traits.mk false (List.replicate 128 ()))
      false true true).1 (by decide) |>.1⟩,
   ⟨by decide,
    (((registration_arity_bound (callable_traits.mk false [(), ()])
      false true true).2 (by decide)).2 rfl).2 rfl⟩⟩

/-!
## Transaction and backup wrappers — `transaction.hpp` / `backup.hpp`

The connection pointer and the internal `active` flag are the observable
state; each operation reports the translated engine code and whether any
SQL was handed to `sqlite3_exec` (`rc` abstracts the engine's outcome for
that SQL). -/

structure transaction where
  db : Bool
  active : Bool
deriving DecidableEq, Repr

/-- `transaction::is_active()`: `db && active`. -/
def transaction.is_active (t : transaction) : Bool := t.db && t.active

/-- `transaction::savepoint(save)`: inactive → `error::misuse`, no SQL;
otherwise execute `SAVEPOINT save` and translate the engine code. -/
def transaction.savepoint (t : transaction) (rc : error) : error × Bool :=
  if !t.is_active then (error.misuse, false) else (rc, true)

/-- `transaction::release(save)`: inactive → `error::misuse`, no SQL;
otherwise execute `RELEASE SAVEPOINT save`. -/
def transaction.release (t : transaction) (rc : error) : error × Bool :=
  if !t.is_active then (error.misuse, false) else (rc, true)

/-- `transaction::rollback(save)` (savepoint form): inactive →
`error::misuse`, no SQL; otherwise execute `ROLLBACK TO SAVEPOINT save`. -/
def transaction.rollback_to (t : transaction) (rc : error) : error × Bool :=
  if !t.is_active then (error.misuse, false) else (rc, true)

/-- `transaction::rollback()` (full form): inactive → `error::misuse`, no
SQL, state unchanged; otherwise execute `ROLLBACK TRANSACTION` and mark the
transaction inactive unconditionally, whatever the engine returned. -/
def transaction.rollback (t : transaction) (rc : error) : error × Bool × transaction :=
  if !t.is_active then (error.misuse, false, t)
  else (rc, true, { t with active := false })

/-- `transaction::commit()`: inactive → `error::misuse`, no SQL, state
unchanged; otherwise execute `COMMIT TRANSACTION` and mark inactive only if
the engine reported ok (`rc == err::ok`, an integer comparison). -/
def transaction.commit (t : transaction) (rc : error) : error × Bool × transaction :=
  if !t.is_active then (error.misuse, false, t)
  else (rc, true, if errBeq rc error.ok then { t with active := false } else t)

/-- `transaction::~transaction()`: executes `ROLLBACK TRANSACTION` iff the
transaction is still active. -/
def transaction.dtor_rolls_back (t : transaction) : Bool := t.is_active

/-- The backup wrapper: a possibly-null `sqlite3_backup` handle. -/
structure backup where
  bak : Bool
deriving DecidableEq, Repr

/-- `backup::finish()` from backup.hpp: on an empty (already finished)
backup return `error::ok` without calling the engine; otherwise release the
handle, call `sqlite3_backup_finish` and translate its code. -/
def backup.finish (b : backup) (rc : error) : error × Bool × backup :=
  if !b.bak then (error.ok, false, b)
  else (rc, true, ⟨false⟩)

/-- Counterexample to C5 as stated: finishing an already-finished (empty)
backup returns `error::ok`, not the misuse code (`// No backup to finish`
path of backup.hpp). -/
theorem backup_finish_empty_returns_ok :
    (backup.finish ⟨false⟩ error.error).1 = error.ok ∧
    (backup.finish ⟨false⟩ error.error).1 ≠ error.misuse ∧
    (backup.finish ⟨false⟩ error.error).2.1 = false := by
  decide

/-- C5 (amended): on an inactive transaction each of savepoint, release,
rollback-to-savepoint, full rollback and commit returns `error::misuse`
without executing any SQL and without changing state; finishing an
already-finished (empty) backup short-circuits without attempting the
operation but returns `error::ok`, not the misuse code. -/
theorem inactive_transaction_ops_return_misuse :
    ∀ (t : transaction) (rc : error),
      t.is_active = false →
        t.savepoint rc = (error.misuse, false) ∧
        t.release rc = (error.misuse, false) ∧
        t.rollback_to rc = (error.misuse, false) ∧
        t.rollback rc = (error.misuse, false, t) ∧
        t.commit rc = (error.misuse, false, t) ∧
        (∀ b : backup, b.bak = false → b.finish rc = (error.ok, false, b)) := by
  intro t rc h
  refine ⟨?_, ?_, ?_, ?_, ?_, ?_⟩
  · unfold transaction.savepoint
    rw [h]
    rfl
  · unfold transaction.release
    rw [h]
    rfl
  · unfold transaction.rollback_to
    rw [h]
    rfl
  · unfold transaction.rollback
    rw [h]
    rfl
  · unfold transaction.commit
    rw [h]
    rfl
  · intro b hb
    unfold backup.finish
    rw [hb]
    rfl

/-- Witness for the amended C5: a discarded-connection transaction and an
empty backup behave as stated. -/
theorem inactive_transaction_ops_return_misuse_witness :
    (transaction.mk true false).is_active = false ∧
    (transaction.mk true false).commit error.ok = (error.misuse, false, transaction.mk true false) :=
  ⟨by decide,
    (inactive_transaction_ops_return_misuse (transaction.mk true false) error.ok
      (by decide)).2.2.2.2.1⟩

/-- C10: on an active transaction, `rollback()` marks the transaction
inactive unconditionally, whatever code the SQL execution returned, while
`commit()` marks it inactive only when the engine reports ok; after a
commit that returned a non-ok code the transaction state is unchanged —
still active — and its destructor will still issue a ROLLBACK. -/
theorem rollback_unconditional_commit_only_on_ok :
    ∀ (t : transaction) (rc : error),
      t.is_active = true →
        (t.rollback rc).2.2.active = false ∧
        (t.rollback rc).1 = rc ∧
        (t.commit rc).1 = rc ∧
        (errBeq rc error.ok = true → (t.commit rc).2.2.active = false) ∧
        (errBeq rc error.ok = false →
          (t.commit rc).2.2 = t ∧
          (t.commit rc).2.2.is_active = true ∧
          transaction.dtor_rolls_back (t.commit rc).2.2 = true) := by
  intro t rc h
  have hr : t.rollback rc = (rc, true, { t with active := false }) := by
    unfold transaction.rollback
    rw [h]
    rfl
  have hc : t.commit rc =
      (rc, true, if errBeq rc error.ok then { t with active := false } else t) := by
    unfold transaction.commit
    rw [h]
    rfl
  refine ⟨by rw [hr], by rw [hr], by rw [hc], fun hok => ?_, fun hnok => ?_⟩
  · rw [hc]
    simp [hok]
  · rw [hc]
    simp only [hnok, if_false]
    exact ⟨rfl, h, h⟩

/-- Witness for C10: an active transaction whose COMMIT is answered with
`error::busy` stays active and its destructor still rolls back. -/
theorem rollback_unconditional_commit_only_on_ok_witness :
    (transaction.mk true true).is_active = true ∧
    ((transaction.mk true true).commit error.busy).2.2 = transaction.mk true true ∧
    ((transaction.mk true true).commit error.busy).2.2.is_active = true ∧
    transaction.dtor_rolls_back ((transaction.mk true true).commit error.busy).2.2 = true :=
  ⟨by decide,
    (rollback_unconditional_commit_only_on_ok (transaction.mk true true) error.busy
      (by decide)).2.2.2.2 (by decide)⟩

/-!
## Text/blob lifetime selection — `tag.hpp` (`deleter_tag`, `bind_tag`)

The destructor/lifetime argument handed to `sqlite3_bind_text64/blob64` and
`sqlite3_result_text64/blob64`: `SQLITE_TRANSIENT` makes the engine copy the
bytes immediately; `SQLITE_STATIC` promises the caller keeps the buffer
alive. -/

/-- The lifetime argument values the layer hands to the engine. -/
inductive Destructor where
| transient
| static
deriving DecidableEq, Repr

/-- Static type of a `text_like` argument: exactly `text_view`
(`std::string_view`) or any other type satisfying the concept (for example
`std::string`). -/
inductive TextLike where
| view
| owned
deriving DecidableEq, Fintype, Repr

/-- Static type of a `blob_like` argument: exactly `blob_view` or any other
type satisfying the concept (for example `uuid_array`). -/
inductive BlobLike where
| view
| owned
deriving DecidableEq, Fintype, Repr

/-- `tag::deleter_tag` dispatch from tag.hpp for text-like arguments: the
generic template overload returns `SQLITE_TRANSIENT`; the exact-match
overload for `text_view` — preferred by overload resolution — returns
`SQLITE_STATIC`.  Resolution sees only the static type. -/
def deleter_text : TextLike → Destructor
| .view => Destructor.static
| .owned => Destructor.transient

/-- `tag::deleter_tag` dispatch for blob-like arguments: generic overload
`SQLITE_TRANSIENT`, exact-match `blob_view` overload `SQLITE_STATIC`. -/
def deleter_blob : BlobLike → Destructor
| .view => Destructor.static
| .owned => Destructor.transient

/-- A text-like or blob-like payload as it reaches a `bind_tag` overload. -/
inductive BoundPayload where
| text (k : TextLike)
| blob (k : BlobLike)
deriving DecidableEq, Fintype, Repr

/-- Statement-side `bind_tag` overloads (`sqlite3_bind_text64` /
`sqlite3_bind_blob64`): the lifetime argument is `deleter(text)` resp.
`deleter(blob)`. -/
def bind_stmt_deleter : BoundPayload → Destructor
| .text k => deleter_text k
| .blob k => deleter_blob k

/-- Context-side (result-encoding) `bind_tag` overloads
(`sqlite3_result_text64` / `sqlite3_result_blob64`): the lifetime argument
is likewise `deleter(text)` resp. `deleter(blob)`. -/
def bind_result_deleter : BoundPayload → Destructor
| .text k => deleter_text k
| .blob k => deleter_blob k

/-- The separate `char const *` overloads of `bind_tag` pass `SQLITE_STATIC`
directly; a plain pointer does not satisfy the `text_like` concept (no
size/data accessors), so it is outside the text-like/blob-like claim. -/
def bind_c_str_deleter : Destructor := Destructor.static

/-- C7: for every text-like or blob-like value bound as a statement
parameter or encoded as a result, the lifetime argument handed to the
engine is determined solely by the argument's static type — identical on
both call sites — and is copy-immediately (`SQLITE_TRANSIENT`) by default,
being no-copy (`SQLITE_STATIC`) exactly when the static type is one of the
recognized non-owning views `text_view` / `blob_view`. -/
theorem text_blob_deleter_selection :
    ∀ p : BoundPayload,
      bind_stmt_deleter p = bind_result_deleter p ∧
      (bind_stmt_deleter p = Destructor.static ↔
        p = BoundPayload.text TextLike.view ∨ p = BoundPayload.blob BlobLike.view) ∧
      (bind_stmt_deleter p ≠ Destructor.static →
        bind_stmt_deleter p = Destructor.transient) := by
  decide

/-- Witness for C7: a `text_view` selects the no-copy lifetime; an owned
string selects the copying one. -/
theorem text_blob_deleter_selection_witness :
    bind_stmt_deleter (BoundPayload.text TextLike.view) = Destructor.static ∧
    bind_stmt_deleter (BoundPayload.text TextLike.owned) = Destructor.transient :=
  ⟨(text_blob_deleter_selection (BoundPayload.text TextLike.view)).2.1.mpr
      (Or.inl rfl),
    (text_blob_deleter_selection (BoundPayload.text TextLike.owned)).2.2
      (by decide)⟩

/-!
## Managed allocation — `pointer.hpp` (`make_managed`)
-/

/-- Behaviour of the `T` constructor invoked by `std::construct_at`. -/
inductive CtorBehavior where
| ok
| throws
deriving DecidableEq, Repr

/-- Observable outcome of one `make_managed<T>` call. -/
structure MakeManagedResult where
  result_null : Bool
  freed_raw : Bool
  constructed : Bool
  propagates : Bool
deriving DecidableEq, Repr

/-- `make_managed<T>(args...)` from pointer.hpp:
`sqlite3_malloc64(storage_size_v<T>)`; on a null allocation return the null
managed pointer without constructing; otherwise `std::construct_at`; if the
constructor throws, the catch-all frees the allocation with `sqlite3_free`
and returns a null managed pointer — the exception is consumed, not
rethrown. -/
def make_managed (allocOk : Bool) (ctor : CtorBehavior) : MakeManagedResult :=
  if allocOk then
    match ctor with
    | .ok => ⟨false, false, true, false⟩
    | .throws => ⟨true, true, false, false⟩
  else ⟨true, false, false, false⟩

/-- Counterexample to C8 as stated: when the constructor throws after a
successful allocation, no failure propagates out of `make_managed` — the
exception is swallowed and a null managed pointer is returned. -/
theorem make_managed_ctor_throw_does_not_propagate :
    (make_managed true CtorBehavior.throws).propagates = false ∧
    ¬ ((make_managed true CtorBehavior.throws).freed_raw = true ∧
        (make_managed true CtorBehavior.throws).propagates = true) := by
  decide

/-- C8 (amended): if the constructor invoked by `make_managed` throws after
the foreign allocation succeeded, the raw allocation is freed via the
foreign deallocator and a null managed pointer is returned with the
exception swallowed — the allocation is never leaked; an allocation failure
itself yields a null managed pointer without constructing `T`. -/
theorem make_managed_no_leak_on_ctor_throw :
    ∀ (allocOk : Bool) (ctor : CtorBehavior),
      (allocOk = true → ctor = CtorBehavior.throws →
        (make_managed allocOk ctor).freed_raw = true ∧
        (make_managed allocOk ctor).result_null = true ∧
        (make_managed allocOk ctor).propagates = false) ∧
      (allocOk = false →
        (make_managed allocOk ctor).result_null = true ∧
        (make_managed allocOk ctor).constructed = false ∧
        (make_managed allocOk ctor).propagates = false) := by
  intro allocOk ctor
  cases allocOk <;> cases ctor <;> simp [make_managed]

/-- Witness for the amended C8: a throwing constructor after a successful
allocation frees the raw buffer and yields a null pointer. -/
theorem make_managed_no_leak_on_ctor_throw_witness :
    (make_managed true CtorBehavior.throws).freed_raw = true ∧
    (make_managed true CtorBehavior.throws).result_null = true ∧
    (make_managed true CtorBehavior.throws).propagates = false :=
  (make_managed_no_leak_on_ctor_throw true CtorBehavior.throws).1 rfl rfl

/-!
## Alignment-aware storage utilities — `pointer.hpp`
(`storage_size`, `pointer_cast`)

Addresses are `uintptr_t`, modelled as `Nat` with arithmetic taken
`% 2 ^ 64` where the C computation can wrap.  A C++ type is represented by
its `sizeof`/`alignof` pair; `alignof` values are powers of two.
`maxAlign` stands for `alignof(std::max_align_t)`, the strictest alignment
the foreign allocator guarantees. -/

/-- A C++ object type as the storage utilities see it. -/
structure ctype where
  size : Nat
  align : Nat
deriving DecidableEq, Repr

/-- The `over_aligned` concept: `alignof(T) > alignof(std::max_align_t)`. -/
def over_aligned (maxAlign : Nat) (t : ctype) : Bool := decide (maxAlign < t.align)

/-- `detail::storage_size_v<T>`: `sizeof(T)` for naturally aligned types;
`sizeof(T) + alignof(T) - 1` for over-aligned ones (room for the forward
alignment adjustment). -/
def storage_size (maxAlign : Nat) (t : ctype) : Nat :=
  if maxAlign < t.align then t.size + t.align - 1 else t.size

/-- `pointer_cast<T>(storage)`: the generic overload returns the pointer
unchanged (`static_cast`); the over-aligned overload computes
`(addr + alignof(T) - 1u) & ~(alignof(T) - 1u)` on 64-bit `uintptr_t`
(the complement of `x` in 64 bits is `(2^64 - 1) - x`). -/
def pointer_cast (maxAlign : Nat) (t : ctype) (addr : Nat) : Nat :=
  if maxAlign < t.align then
    ((addr + t.align - 1) % 2^64) &&& ((2^64 - 1) - (t.align - 1))
  else addr

lemma sub_mod_eq_mul_div (a y : Nat) : y - y % a = a * (y / a) := by
  have := Nat.div_add_mod y a
  omega

lemma two_pow_sub_two_pow (k : Nat) (hk : k ≤ 64) :
    2^64 - 2^k = 2^k * (2^(64-k) - 1) := by
  rw [Nat.mul_sub, Nat.mul_one, ← Nat.pow_add, Nat.add_sub_cancel' hk]

/-- Clearing the low `k` bits of a 64-bit value rounds it down to the
nearest multiple of `2 ^ k`. -/
lemma land_mask_eq_sub_mod (k y : Nat) (hk : k ≤ 64) (hy : y < 2^64) :
    y &&& (2^64 - 2^k) = y - y % 2^k := by
  rw [two_pow_sub_two_pow k hk, sub_mod_eq_mul_div (2^k) y]
  apply Nat.eq_of_testBit_eq
  intro i
  rw [Nat.testBit_and, Nat.testBit_mul_pow_two, Nat.testBit_mul_pow_two,
    Nat.testBit_two_pow_sub_one]
  have hdiv : y / 2^k = y >>> k := (Nat.shiftRight_eq_div_pow y k).symm
  rw [hdiv, Nat.testBit_shiftRight]
  by_cases hik : k ≤ i
  · have h1 : k + (i - k) = i := by omega
    rw [h1]
    by_cases hi64 : i < 64
    · have h2 : i - k < 64 - k := by omega
      simp [hik, h2]
    · have hyi : Nat.testBit y i = false :=
        Nat.testBit_lt_two_pow
          (lt_of_lt_of_le hy (Nat.pow_le_pow_right (by omega) (by omega)))
      simp [hyi]
  · simp [hik]

/-- On the over-aligned path, `pointer_cast` is exactly the round-down of
`addr + align - 1` to a multiple of the alignment. -/
lemma pointer_cast_over (maxAlign : Nat) (t : ctype) (addr k : Nat)
    (hover : maxAlign < t.align) (hal : t.align = 2^k) (hk : k ≤ 63)
    (hfit : addr + t.align ≤ 2^64) :
    pointer_cast maxAlign t addr =
      (addr + t.align - 1) - (addr + t.align - 1) % t.align := by
  have ha1 : 1 ≤ t.align := by
    rw [hal]
    exact Nat.one_le_two_pow
  have hmask : (2^64 - 1) - (t.align - 1) = 2^64 - 2^k := by
    have : (2:Nat)^k ≤ 2^64 := Nat.pow_le_pow_right (by omega) (by omega)
    omega
  have hlt : addr + t.align - 1 < 2^64 := by omega
  unfold pointer_cast
  rw [if_pos hover, hmask, Nat.mod_eq_of_lt hlt, hal,
    land_mask_eq_sub_mod k (addr + 2^k - 1) (by omega) (by rw [hal] at hlt; exact hlt)]

/-- C6: for naturally aligned types `storage_size` is `sizeof` and
`pointer_cast` returns the pointer unchanged; for over-aligned types
`storage_size` is `sizeof + alignof - 1` and `pointer_cast` returns the
smallest address ≥ the buffer base that is a multiple of the alignment; in
both cases, for a default-aligned base that fits the address space, the
returned pointer is aligned to `alignof(T)` and the object footprint
`[result, result + sizeof)` stays inside `[base, base + storage_size)`. -/
theorem storage_size_pointer_cast_correct :
    ∀ (maxAlign : Nat) (t : ctype) (addr j k : Nat),
      maxAlign = 2^j → t.align = 2^k → k ≤ 63 → 0 < t.size →
      addr % maxAlign = 0 →
      addr + storage_size maxAlign t ≤ 2^64 →
      ((t.align ≤ maxAlign →
          storage_size maxAlign t = t.size ∧ pointer_cast maxAlign t addr = addr) ∧
        (maxAlign < t.align →
          storage_size maxAlign t = t.size + t.align - 1 ∧
          (∀ m : Nat, t.align ∣ m → addr ≤ m → pointer_cast maxAlign t addr ≤ m)) ∧
        (t.align ∣ pointer_cast maxAlign t addr ∧
          addr ≤ pointer_cast maxAlign t addr ∧
          pointer_cast maxAlign t addr + t.size ≤ addr + storage_size maxAlign t)) := by
  intro maxAlign t addr j k hmax hal hk hsz hbase hfit
  have ha1 : 1 ≤ t.align := by
    rw [hal]
    exact Nat.one_le_two_pow
  by_cases hover : maxAlign < t.align
  · have hss : storage_size maxAlign t = t.size + t.align - 1 := by
      unfold storage_size
      rw [if_pos hover]
    have hfit' : addr + t.align ≤ 2^64 := by
      rw [hss] at hfit
      omega
    have hpc := pointer_cast_over maxAlign t addr k hover hal hk hfit'
    have hmod : (addr + t.align - 1) % t.align < t.align :=
      Nat.mod_lt _ (by omega)
    have hdvd : t.align ∣ pointer_cast maxAlign t addr := by
      rw [hpc, sub_mod_eq_mul_div t.align (addr + t.align - 1)]
      exact Dvd.intro _ rfl
    refine ⟨fun hle => absurd hle (by omega), fun _ => ⟨hss, ?_⟩, hdvd, ?_, ?_⟩
    · intro m hm hle
      rcases hdvd with ⟨p, hp⟩
      rcases hm with ⟨q, hq⟩
      have hub : pointer_cast maxAlign t addr < m + t.align := by
        rw [hpc]
        omega
      rw [hp, hq] at hub ⊢
      have hpq : p < q + 1 := by
        have h9 : t.align * p < t.align * (q + 1) := by
          rw [Nat.mul_add, Nat.mul_one]
          omega
        exact Nat.lt_of_mul_lt_mul_left h9
      exact Nat.mul_le_mul_left t.align (by omega)
    · rw [hpc]
      omega
    · rw [hpc, hss]
      omega
  · have hle : t.align ≤ maxAlign := by omega
    have hss : storage_size maxAlign t = t.size := by
      unfold storage_size
      rw [if_neg hover]
    have hpc : pointer_cast maxAlign t addr = addr := by
      unfold pointer_cast
      rw [if_neg hover]
    have hdvd : t.align ∣ addr := by
      have h1 : maxAlign ∣ addr := Nat.dvd_of_mod_eq_zero hbase
      have h2 : t.align ∣ maxAlign := by
        rw [hal, hmax]
        exact pow_dvd_pow 2 (by
          by_contra hkj
          push_neg at hkj
          have : (2:Nat)^j < 2^k := Nat.pow_lt_pow_right (by omega) hkj
          omega)
      exact h2.trans h1
    refine ⟨fun _ => ⟨hss, hpc⟩, fun hlt => absurd hlt (by omega), ?_, ?_, ?_⟩
    · rw [hpc]
      exact hdvd
    · rw [hpc]
    · rw [hpc, hss]

/-- Witness for C6: `maxAlign = 16`, an over-aligned type with
`sizeof = 24`, `alignof = 64`, base address `1048592` (a multiple of 16 but
not of 64): the adjusted pointer is `1048640`, 64-aligned, at least the
base, and `1048640 + 24` fits inside the requested `24 + 63` bytes. -/
theorem storage_size_pointer_cast_correct_witness :
    pointer_cast 16 (ctype.mk 24 64) 1048592 = 1048640 ∧
    (64 ∣ pointer_cast 16 (ctype.mk 24 64) 1048592 ∧
      1048592 ≤ pointer_cast 16 (ctype.mk 24 64) 1048592 ∧
      pointer_cast 16 (ctype.mk 24 64) 1048592 + 24 ≤
        1048592 + storage_size 16 (ctype.mk 24 64)) :=
  ⟨by decide,
    (storage_size_pointer_cast_correct 16 (ctype.mk 24 64) 1048592 4 6
      (by decide) (by decide) (by decide) (by decide) (by decide)
      (by decide)).2.2⟩

end JuSqlite
